import Mathlib

/-!
Shallow embedding of `src/app.py` (the chunked audio-transcription pipeline)
and proofs of the specification's claims about it.

The source program is a single function `transcribe_audio` plus caller glue:
it decodes an uploaded audio file, slices its timeline into 30000 ms windows,
calls a remote recognizer per window (`recognizer.recognize_google`), appends
each non-empty result as a right-aligned paragraph to a DOCX document, saves
the document to a temporary file and returns its path; a single `except`
handler catches every exception raised in the body, deletes the uploaded
temporary file, shows an error message and returns `None`.

External effects (the decoder, the recognition service, temporary-file name
generation, the document save) are modelled by an `Env` record supplying the
outcome of each effectful call; the function itself is translated line by
line into a pure state-passing program over that environment.
-/

namespace Transcriber

/-! ## Definitions -/

/-- `chunk_length_ms = 30 * 1000` (src/app.py line 58). -/
def chunk_length_ms : Nat := 30 * 1000

/-- `total_chunks = math.ceil(total_length_ms / chunk_length_ms)`
(src/app.py line 60), as Nat ceiling division. -/
def total_chunks (total_length_ms : Nat) : Nat :=
  (total_length_ms + chunk_length_ms - 1) / chunk_length_ms

/-- A chunk of the audio timeline.  `start_ms = i * chunk_length_ms`; the
slice `audio[start_ms:end_ms]` (src/app.py lines 70-72) clips at the audio's
end, so the chunk's actual end is `min (start_ms + chunk_length_ms) D`. -/
structure Chunk where
  start_ms : Nat
  end_ms : Nat
  deriving Repr, DecidableEq, Inhabited

/-- Length of a chunk in milliseconds. -/
def Chunk.len (c : Chunk) : Nat := c.end_ms - c.start_ms

/-- The chunk produced by loop iteration `i` for audio of duration `D` ms
(src/app.py lines 70-72). -/
def chunkAt (D i : Nat) : Chunk :=
  { start_ms := i * chunk_length_ms
    end_ms := min (i * chunk_length_ms + chunk_length_ms) D }

/-- The full list of chunks produced by the loop `for i in range(total_chunks)`
(src/app.py line 69). -/
def chunks (D : Nat) : List Chunk :=
  (List.range (total_chunks D)).map (chunkAt D)

/-- Result of one `recognizer.recognize_google` call (src/app.py line 82):
either recognized text, `sr.UnknownValueError` (no speech detected), or
`sr.RequestError` with a message (service/transport-level failure). -/
inductive RecResult where
  | ok (text : String)
  | unknownValue
  | requestError (msg : String)
  deriving Repr, DecidableEq

/-- `r` is one of the two recoverable recognition failure kinds. -/
def RecResult.isRecoverable (r : RecResult) : Prop :=
  r = .unknownValue ∨ ∃ m, r = .requestError m

/-- Python string truthiness: `if text:` (src/app.py line 89) is true iff
`text` is non-empty. -/
def pyTruthy (s : String) : Bool := s != ""

/-- The value the local variable `text` holds after the try/except block of
src/app.py lines 80-87: the recognized text on success, `""` when
`sr.UnknownValueError` or `sr.RequestError` was caught. -/
def segText : RecResult → String
  | .ok t => t
  | .unknownValue => ""
  | .requestError _ => ""

/-- The status line written by `status_text.text` for chunk `i` of `total`
(src/app.py lines 83, 85, 87). -/
def statusMsg (i total : Nat) : RecResult → String
  | .ok t =>
      "[" ++ toString (i + 1) ++ "/" ++ toString total ++ "] Transcribed: "
        ++ t.take 50 ++ "..."
  | .unknownValue =>
      "[" ++ toString (i + 1) ++ "/" ++ toString total
        ++ "] Could not understand audio (silence?)."
  | .requestError e =>
      "[" ++ toString (i + 1) ++ "/" ++ toString total
        ++ "] API request failed: " ++ e

/-- Environment supplying the outcome of every effectful call the function
makes.  `tmpName k` is the name `tempfile.NamedTemporaryFile` hands out for
the k-th temporary file created during the request. -/
structure Env where
  /-- `some msg` iff `AudioSegment.from_file` (src/app.py line 55) raises,
  with message `msg`. -/
  decodeError : Option String
  /-- `len(audio)` in ms after decoding and resampling (src/app.py line 59). -/
  durationMs : Nat
  /-- Outcome of the recognition call for chunk index `i` (src/app.py line 82). -/
  recognize : Nat → RecResult
  /-- `some msg` iff `doc.save` (src/app.py line 101) raises, with message `msg`. -/
  saveError : Option String
  /-- Fresh temporary-file name supply. -/
  tmpName : Nat → String

/-- Per-request mutable state: the temporary files currently on disk, the
paragraph texts of the in-memory `doc`, the status lines emitted so far, and
the index of the next temporary name to draw. -/
structure RunState where
  files : List String
  doc : List String
  statuses : List String
  nextTmp : Nat
  deriving Repr, DecidableEq

/-- Loop body for chunk `i` (src/app.py lines 69-97): create a temporary WAV
file for the chunk, run recognition with the two recoverable exception kinds
caught (so `text` falls back to `""`), emit a status line, append a paragraph
when `text` is non-empty, and delete the chunk's WAV file. -/
def processChunk (env : Env) (total : Nat) (s : RunState) (i : Nat) : RunState :=
  let wavName := env.tmpName s.nextTmp
  let s1 : RunState :=
    { s with nextTmp := s.nextTmp + 1, files := wavName :: s.files }
  let text := segText (env.recognize i)
  let s2 : RunState :=
    { s1 with statuses := s1.statuses ++ [statusMsg i total (env.recognize i)] }
  let s3 : RunState :=
    if pyTruthy text then { s2 with doc := s2.doc ++ [text] } else s2
  { s3 with files := s3.files.erase wavName }

/-- The `try` block of `transcribe_audio` (src/app.py lines 52-106): decode
(may raise), loop over all chunks, create the output file's temporary name
(the file comes into existence at that point), save the document (may raise).
Returns the output path and final state, or the raised exception's message
and the state at the raise point. -/
def tryBody (env : Env) (s0 : RunState) :
    Except (String × RunState) (String × RunState) :=
  match env.decodeError with
  | some msg => .error (msg, s0)
  | none =>
    let total := total_chunks env.durationMs
    let sEnd := (List.range total).foldl (processChunk env total) s0
    let outName := env.tmpName sEnd.nextTmp
    let s2 : RunState :=
      { sEnd with files := outName :: sEnd.files, nextTmp := sEnd.nextTmp + 1 }
    match env.saveError with
    | some msg => .error (msg, s2)
    | none => .ok (outName, s2)

/-- Observable outcome of one call to `transcribe_audio`. -/
structure Outcome where
  /-- The returned value: the output document's path, or `none` (Python `None`). -/
  result : Option String
  /-- Temporary files still on disk when the function returns. -/
  files : List String
  /-- Paragraph texts of the in-memory document, in insertion order. -/
  doc : List String
  /-- Status lines emitted, one per processed chunk. -/
  statuses : List String
  /-- The `st.error` message, when the except handler ran. -/
  errorShown : Option String
  deriving Repr, DecidableEq

/-- Prefix of the `st.error` message (src/app.py line 110). -/
def errPrefix : String := "❌ An error occurred during processing: "

/-- `transcribe_audio` (src/app.py lines 32-111).  The uploaded file is first
written to temporary file `tmpName 0` (lines 48-50); every exception raised
in the body is caught by the single `except` handler (lines 108-111), which
deletes the uploaded temporary file, shows the error and returns `None`; on
success the uploaded temporary file is deleted and the output document's
path is returned (lines 104-106). -/
def transcribe_audio (env : Env) : Outcome :=
  let tmpPath := env.tmpName 0
  let s0 : RunState := { files := [tmpPath], doc := [], statuses := [], nextTmp := 1 }
  match tryBody env s0 with
  | .ok (outPath, s) =>
      { result := some outPath, files := s.files.erase tmpPath,
        doc := s.doc, statuses := s.statuses, errorShown := none }
  | .error (msg, s) =>
      { result := none, files := s.files.erase tmpPath,
        doc := s.doc, statuses := s.statuses,
        errorShown := some (errPrefix ++ msg) }

/-- The caller's whole-request flow (src/app.py lines 114-132): call
`transcribe_audio`; when a path is returned, serve the file for download and
then delete it (line 132). -/
def appRun (env : Env) : Outcome :=
  let o := transcribe_audio env
  match o.result with
  | some p => { o with files := o.files.erase p }
  | none => o

/-- The paragraph list determined by the duration and the recognition
outcomes: one paragraph per chunk whose `text` is non-empty, in chunk order. -/
def docParas (env : Env) : List String :=
  ((List.range (total_chunks env.durationMs)).map
    (fun i => segText (env.recognize i))).filter pyTruthy

/-- A concrete environment for witnesses: 65 s of audio, chunk 1 hits
`sr.UnknownValueError`, decode and save succeed. -/
def envDemo : Env :=
  { decodeError := none
    durationMs := 65000
    recognize := fun i => if i = 1 then .unknownValue else .ok ("chunk" ++ toString i)
    saveError := none
    tmpName := fun k => "tmp" ++ toString k }

/-- A concrete environment whose `doc.save` call raises. -/
def envSaveFail : Env :=
  { envDemo with saveError := some "disk full" }

/-- A concrete environment whose decode call raises. -/
def envDecodeFail : Env :=
  { envDemo with decodeError := some "Decoding failed. ffmpeg returned error code: 1" }

/-- A concrete zero-duration environment. -/
def envZero : Env :=
  { envDemo with durationMs := 0 }

/-- Like `envDemo` but chunk 1 hits `sr.RequestError` instead of
`sr.UnknownValueError`. -/
def envReqFail : Env :=
  { envDemo with
    recognize := fun j =>
      if j = 1 then .requestError "recognition request failed: Bad Gateway"
      else envDemo.recognize j }

/-- Like `envDemo` but chunk 1's recognition succeeds with the empty string. -/
def envEmptyText : Env :=
  { envDemo with
    recognize := fun j => if j = 1 then .ok "" else envDemo.recognize j }

/-- Like `envDemo` but the OS hands out different temporary file names. -/
def envAltNames : Env :=
  { envDemo with tmpName := fun k => "other" ++ toString k }

end Transcriber

namespace Transcriber

/-! ## Chunker lemmas -/

/-- `i < total_chunks D` exactly when window `i` starts strictly inside the
audio: `i * 30000 < D`. -/
theorem lt_total_chunks_iff (D i : Nat) :
    i < total_chunks D ↔ i * chunk_length_ms < D := by
  unfold total_chunks chunk_length_ms
  omega

theorem chunks_length (D : Nat) : (chunks D).length = total_chunks D := by
  simp [chunks]

theorem chunks_getD (D i : Nat) (h : i < total_chunks D) :
    (chunks D).getD i default = chunkAt D i := by
  simp [chunks, List.getD_eq_getElem?_getD, List.getElem?_map, List.getElem?_range, h]

/-! ## Pipeline unfolding lemmas -/

/-- The loop never changes the set of files on disk: each iteration creates
one WAV file and deletes exactly that file. -/
theorem foldl_processChunk_files (env : Env) (total : Nat) (l : List Nat)
    (s : RunState) : (l.foldl (processChunk env total) s).files = s.files := by
  induction l generalizing s with
  | nil => rfl
  | cons a l ih =>
    rw [List.foldl_cons, ih]
    by_cases h : pyTruthy (segText (env.recognize a)) <;>
      simp [processChunk, h]

/-- The loop appends, to the document, exactly the non-empty recognized
texts of the processed chunks, in order. -/
theorem foldl_processChunk_doc (env : Env) (total : Nat) (l : List Nat)
    (s : RunState) :
    (l.foldl (processChunk env total) s).doc
      = s.doc ++ (l.map fun i => segText (env.recognize i)).filter pyTruthy := by
  induction l generalizing s with
  | nil => simp
  | cons a l ih =>
    rw [List.foldl_cons, ih]
    by_cases h : pyTruthy (segText (env.recognize a)) <;>
      simp [processChunk, h, List.filter_cons]

/-- The loop emits exactly one status line per processed chunk, in order. -/
theorem foldl_processChunk_statuses (env : Env) (total : Nat) (l : List Nat)
    (s : RunState) :
    (l.foldl (processChunk env total) s).statuses
      = s.statuses ++ l.map fun i => statusMsg i total (env.recognize i) := by
  induction l generalizing s with
  | nil => simp
  | cons a l ih =>
    rw [List.foldl_cons, ih]
    by_cases h : pyTruthy (segText (env.recognize a)) <;>
      simp [processChunk, h]

/-- When decoding succeeds, the in-memory document holds exactly the
non-empty recognized texts, in chunk order. -/
theorem transcribe_doc (env : Env) (hdec : env.decodeError = none) :
    (transcribe_audio env).doc = docParas env := by
  unfold transcribe_audio tryBody
  rw [hdec]
  cases hsave : env.saveError <;>
    simp [foldl_processChunk_doc, docParas]

/-- When decoding succeeds, one status line is emitted per chunk. -/
theorem transcribe_statuses (env : Env) (hdec : env.decodeError = none) :
    (transcribe_audio env).statuses
      = (List.range (total_chunks env.durationMs)).map
          fun i => statusMsg i (total_chunks env.durationMs) (env.recognize i) := by
  unfold transcribe_audio tryBody
  rw [hdec]
  cases hsave : env.saveError <;>
    simp [foldl_processChunk_statuses]

/-- When both decode and save succeed, the function returns a path and shows
no error. -/
theorem transcribe_success (env : Env) (hdec : env.decodeError = none)
    (hsave : env.saveError = none) :
    (transcribe_audio env).result.isSome ∧ (transcribe_audio env).errorShown = none := by
  unfold transcribe_audio tryBody
  rw [hdec, hsave]
  simp

/-- If a filtered paragraph source has an empty entry at chunk `i`, the
document equals the one built from all other chunks alone: chunk `i`
contributes no paragraph. -/
theorem docParas_drop_of_empty (env : Env) (i : Nat)
    (h : segText (env.recognize i) = "") :
    docParas env
      = (((List.range (total_chunks env.durationMs)).filter (fun j => !(j == i))).map
          (fun j => segText (env.recognize j))).filter pyTruthy := by
  unfold docParas
  rw [List.filter_map, List.filter_map, List.filter_filter]
  congr 1
  apply List.filter_congr
  intro a _
  by_cases hai : a = i
  · subst hai
    simp [Function.comp, h, pyTruthy]
  · simp [hai]

/-- A recoverable recognition failure leaves `text` empty. -/
theorem segText_of_recoverable (r : RecResult) (h : r.isRecoverable) :
    segText r = "" := by
  rcases h with h | ⟨m, h⟩ <;> subst h <;> rfl

/-- The document paragraphs depend only on the duration and the per-chunk
recognized texts. -/
theorem docParas_congr (env env' : Env)
    (hdur : env'.durationMs = env.durationMs)
    (hseg : ∀ j, segText (env'.recognize j) = segText (env.recognize j)) :
    docParas env' = docParas env := by
  unfold docParas
  rw [hdur]
  have hfun : (fun j => segText (env'.recognize j))
      = fun j => segText (env.recognize j) := funext hseg
  rw [hfun]

/-- When decoding succeeds but `doc.save` raises, the except handler runs:
`None` is returned and the save exception's message is shown. -/
theorem transcribe_save_fail (env : Env) (m : String)
    (hdec : env.decodeError = none) (hsave : env.saveError = some m) :
    (transcribe_audio env).result = none
    ∧ (transcribe_audio env).errorShown = some (errPrefix ++ m) := by
  unfold transcribe_audio tryBody
  rw [hdec, hsave]
  simp

/-- A decode failure makes the whole request fail: the handler deletes the
uploaded temporary file, shows the message, and returns `None` with the
document never touched. -/
theorem transcribe_decode_fail (env : Env) (m : String)
    (h : env.decodeError = some m) :
    transcribe_audio env =
      { result := none, files := [], doc := [], statuses := [],
        errorShown := some (errPrefix ++ m) } := by
  unfold transcribe_audio tryBody
  rw [h]
  simp

/-- Both files of a two-element list are gone after erasing each name once,
whether or not the two names collide. -/
theorem erase_pair (o t : String) : ([o, t].erase t).erase o = [] := by
  by_cases h : o = t <;> simp [List.erase_cons, h]

/-- Erasing one name from a two-element list leaves exactly one file,
whether or not the two names collide. -/
theorem erase_pair_length (o t : String) : ([o, t].erase t).length = 1 := by
  by_cases h : o = t <;> simp [List.erase_cons, h]

/-! ## Claims -/

/-- C1: for every duration `D`, the chunker yields exactly `ceil(D/30000)`
chunks; consecutive chunks are adjacent (no gaps, no overlaps), the first
starts at 0 and the last ends at `D`, so they partition `[0, D)`: every
instant `t < D` lies in exactly one chunk; every chunk but the last has
length exactly 30000, the last has length `D - 30000*(count-1)`, and when
`D` is an exact multiple of 30000 the count is `D/30000`, not one more. -/
theorem chunker_partitions (D : Nat) :
    (chunks D).length = (D + 30000 - 1) / 30000
    ∧ (∀ i, i < total_chunks D → (chunks D).getD i default = chunkAt D i)
    ∧ (chunkAt D 0).start_ms = 0
    ∧ (∀ i, i + 1 < total_chunks D →
        (chunkAt D i).end_ms = (chunkAt D (i + 1)).start_ms)
    ∧ (0 < total_chunks D → (chunkAt D (total_chunks D - 1)).end_ms = D)
    ∧ (∀ t, t < D → ∃! i, i < total_chunks D ∧
        (chunkAt D i).start_ms ≤ t ∧ t < (chunkAt D i).end_ms)
    ∧ (∀ i, i + 1 < total_chunks D → (chunkAt D i).len = 30000)
    ∧ (0 < total_chunks D →
        (chunkAt D (total_chunks D - 1)).len = D - 30000 * (total_chunks D - 1))
    ∧ (D % 30000 = 0 → total_chunks D = D / 30000) := by
  refine ⟨chunks_length D, fun i h => chunks_getD D i h, ?_, ?_, ?_, ?_, ?_, ?_, ?_⟩ <;>
    simp only [chunkAt, Chunk.len, total_chunks, chunk_length_ms]
  all_goals try omega
  intro t ht
  refine ⟨t / (30 * 1000), ⟨by omega, by omega, by omega⟩, ?_⟩
  rintro j ⟨hj0, hj1, hj2⟩
  omega

/-- Witness for `chunker_partitions` at `D = 65000`: 3 chunks, the first of
length 30000, the last of length 5000 ending at 65000, instant 61000 falling
in a unique chunk, and 60000 being an exact multiple yields 60000/30000. -/
theorem chunker_partitions_witness :
    total_chunks 65000 = 3
    ∧ (chunkAt 65000 0).len = 30000
    ∧ (chunkAt 65000 2).len = 65000 - 30000 * (3 - 1)
    ∧ (chunkAt 65000 2).end_ms = 65000
    ∧ (∃! i, i < total_chunks 65000 ∧
        (chunkAt 65000 i).start_ms ≤ 61000 ∧ 61000 < (chunkAt 65000 i).end_ms)
    ∧ total_chunks 60000 = 60000 / 30000 := by
  have h := chunker_partitions 65000
  have h60 := chunker_partitions 60000
  have hc : total_chunks 65000 = 3 := by decide
  refine ⟨hc, h.2.2.2.2.2.2.1 0 (by decide), ?_, ?_, ?_, ?_⟩
  · have := h.2.2.2.2.2.2.2.1 (by decide)
    simpa [hc] using this
  · have := h.2.2.2.2.1 (by decide)
    simpa [hc] using this
  · exact h.2.2.2.2.2.1 61000 (by decide)
  · exact h60.2.2.2.2.2.2.2.2 (by decide)

/-- C2: when a chunk's recognition call fails with either recoverable kind
(`sr.UnknownValueError` = no speech, or `sr.RequestError` = service failure),
that chunk's `text` is the empty string and it contributes no paragraph: the
document equals the one built from the other chunks alone; swapping one
recoverable kind for the other at that chunk leaves the document unchanged
(the two kinds are indistinguishable in the output); the run still returns a
path with no error shown, and a status line is emitted for every chunk, so
the loop ran to completion. -/
theorem recoverable_failures_degrade_silently (env env' : Env) (i : Nat)
    (hdec : env.decodeError = none) (hsave : env.saveError = none)
    (hrec : (env.recognize i).isRecoverable)
    (hdur : env'.durationMs = env.durationMs) (hdec' : env'.decodeError = none)
    (hagree : ∀ j, j ≠ i → env'.recognize j = env.recognize j)
    (hrec' : (env'.recognize i).isRecoverable) :
    segText (env.recognize i) = ""
    ∧ (transcribe_audio env).doc
        = (((List.range (total_chunks env.durationMs)).filter (fun j => !(j == i))).map
            (fun j => segText (env.recognize j))).filter pyTruthy
    ∧ (transcribe_audio env').doc = (transcribe_audio env).doc
    ∧ (transcribe_audio env).result.isSome
    ∧ (transcribe_audio env).errorShown = none
    ∧ (transcribe_audio env).statuses.length = total_chunks env.durationMs := by
  have hseg : segText (env.recognize i) = "" := segText_of_recoverable _ hrec
  have hseg' : segText (env'.recognize i) = "" := segText_of_recoverable _ hrec'
  refine ⟨hseg, ?_, ?_, (transcribe_success env hdec hsave).1,
    (transcribe_success env hdec hsave).2, ?_⟩
  · rw [transcribe_doc env hdec]
    exact docParas_drop_of_empty env i hseg
  · rw [transcribe_doc env hdec, transcribe_doc env' hdec']
    refine docParas_congr env env' hdur fun j => ?_
    by_cases hj : j = i
    · subst hj
      rw [hseg, hseg']
    · rw [hagree j hj]
  · rw [transcribe_statuses env hdec]
    simp

/-- Witness for `recoverable_failures_degrade_silently`: 65 s of audio where
chunk 1 hits `UnknownValueError` in one environment and `RequestError` in
the other. -/
theorem recoverable_failures_degrade_silently_witness :
    segText (envDemo.recognize 1) = ""
    ∧ (transcribe_audio envReqFail).doc = (transcribe_audio envDemo).doc
    ∧ (transcribe_audio envDemo).result.isSome
    ∧ (transcribe_audio envDemo).statuses.length = total_chunks envDemo.durationMs := by
  have h := recoverable_failures_degrade_silently envDemo envReqFail 1
    rfl rfl (Or.inl rfl) rfl rfl
    (fun j hj => by simp [envReqFail, hj]) (Or.inr ⟨_, rfl⟩)
  exact ⟨h.1, h.2.2.1, h.2.2.2.1, h.2.2.2.2.2⟩

/-- C3: the number of paragraphs never exceeds the number of chunks; it
equals the chunk count exactly when every chunk's recognized text is
non-empty; and no paragraph of the document is blank. -/
theorem paragraph_count_le_chunk_count (env : Env) (hdec : env.decodeError = none) :
    (transcribe_audio env).doc.length ≤ total_chunks env.durationMs
    ∧ ((transcribe_audio env).doc.length = total_chunks env.durationMs
        ↔ ∀ j, j < total_chunks env.durationMs → segText (env.recognize j) ≠ "")
    ∧ ∀ p, p ∈ (transcribe_audio env).doc → p ≠ "" := by
  rw [transcribe_doc env hdec]
  unfold docParas
  refine ⟨?_, ?_, ?_⟩
  · calc (((List.range (total_chunks env.durationMs)).map
          (fun i => segText (env.recognize i))).filter pyTruthy).length
        ≤ ((List.range (total_chunks env.durationMs)).map
            (fun i => segText (env.recognize i))).length :=
          List.length_filter_le _ _
      _ = total_chunks env.durationMs := by simp
  · constructor
    · intro hlen j hj
      have hsub := List.filter_sublist (p := pyTruthy)
        ((List.range (total_chunks env.durationMs)).map
          (fun i => segText (env.recognize i)))
      have heq := hsub.eq_of_length (by rw [hlen]; simp)
      have hall := List.filter_eq_self.mp heq
      have hmem : segText (env.recognize j)
          ∈ (List.range (total_chunks env.durationMs)).map
              (fun i => segText (env.recognize i)) :=
        List.mem_map.mpr ⟨j, List.mem_range.mpr hj, rfl⟩
      have := hall _ hmem
      simpa [pyTruthy] using this
    · intro hall
      have heq : ((List.range (total_chunks env.durationMs)).map
            (fun i => segText (env.recognize i))).filter pyTruthy
          = (List.range (total_chunks env.durationMs)).map
              (fun i => segText (env.recognize i)) := by
        apply List.filter_eq_self.mpr
        intro a ha
        obtain ⟨j, hj, rfl⟩ := List.mem_map.mp ha
        have := hall j (List.mem_range.mp hj)
        simpa [pyTruthy] using this
      rw [heq]
      simp
  · intro p hp
    have := List.of_mem_filter hp
    simpa [pyTruthy] using this

/-- Witness for `paragraph_count_le_chunk_count` at `envDemo`: 3 chunks,
chunk 1 silent. -/
theorem paragraph_count_le_chunk_count_witness :
    (transcribe_audio envDemo).doc.length ≤ total_chunks envDemo.durationMs
    ∧ ¬ ((transcribe_audio envDemo).doc.length = total_chunks envDemo.durationMs) := by
  have h := paragraph_count_le_chunk_count envDemo rfl
  refine ⟨h.1, fun hcontra => ?_⟩
  have := (h.2.1.mp hcontra) 1 (by decide)
  exact this rfl

/-- C4: the document is exactly the recognized texts of the non-empty
chunks, mapped over the chunk indices in strictly increasing temporal
order — paragraphs are never reordered or deduplicated. -/
theorem paragraphs_in_chunk_order (env : Env) (hdec : env.decodeError = none) :
    (transcribe_audio env).doc
      = ((List.range (total_chunks env.durationMs)).filter
          (fun j => pyTruthy (segText (env.recognize j)))).map
          (fun j => segText (env.recognize j))
    ∧ ((List.range (total_chunks env.durationMs)).filter
        (fun j => pyTruthy (segText (env.recognize j)))).Pairwise (· < ·) := by
  constructor
  · rw [transcribe_doc env hdec]
    unfold docParas
    rw [List.filter_map]
    rfl
  · exact List.Pairwise.sublist (List.filter_sublist _) (List.pairwise_lt_range _)

/-- Witness for `paragraphs_in_chunk_order` at `envDemo`: the document lists
chunk 0's then chunk 2's marker text. -/
theorem paragraphs_in_chunk_order_witness :
    (transcribe_audio envDemo).doc
      = ((List.range (total_chunks envDemo.durationMs)).filter
          (fun j => pyTruthy (segText (envDemo.recognize j)))).map
          (fun j => segText (envDemo.recognize j)) := by
  exact (paragraphs_in_chunk_order envDemo rfl).1

/-- C5 as stated is false: when `doc.save` raises, the `except` handler only
deletes the uploaded temporary file (src/app.py line 109), and the `.docx`
temporary file created just before the save (line 100) survives the request.
Concretely, with 65 s of audio and a failing save, a temporary file remains
on disk after the whole request. -/
theorem temp_cleanup_counterexample : (appRun envSaveFail).files ≠ [] := by
  decide

/-- C5 (amended): on a successful request and on a decode-failure abort,
every temporary filesystem artifact created for the request is deleted —
in particular a decode failure on input leaves no temporary files behind —
but a save (serialization) failure leaves exactly one temporary file behind:
the output document's. -/
theorem temp_cleanup_amended (env : Env) :
    (env.decodeError = none → env.saveError = none → (appRun env).files = [])
    ∧ (∀ m, env.decodeError = some m → (appRun env).files = [])
    ∧ (∀ m, env.decodeError = none → env.saveError = some m →
        (appRun env).files.length = 1) := by
  refine ⟨?_, ?_, ?_⟩
  · intro hdec hsave
    unfold appRun transcribe_audio tryBody
    rw [hdec, hsave]
    simp [foldl_processChunk_files, erase_pair]
  · intro m hdec
    unfold appRun transcribe_audio tryBody
    rw [hdec]
    simp
  · intro m hdec hsave
    unfold appRun transcribe_audio tryBody
    rw [hdec, hsave]
    simp [foldl_processChunk_files, erase_pair_length]

/-- Witness for `temp_cleanup_amended`: success and decode-failure runs leave
nothing, a save-failure run leaves one file. -/
theorem temp_cleanup_amended_witness :
    (appRun envDemo).files = []
    ∧ (appRun envDecodeFail).files = []
    ∧ (appRun envSaveFail).files.length = 1 := by
  exact ⟨(temp_cleanup_amended envDemo).1 rfl rfl,
    (temp_cleanup_amended envDecodeFail).2.1 _ rfl,
    (temp_cleanup_amended envSaveFail).2.2 _ rfl rfl⟩

/-- C6: a decode failure is fatal for the whole request: `None` is returned,
the in-memory document stays empty, no temporary file (in particular no
output document file) survives, no status line was emitted, and the failure
is reported with the underlying cause message appended to the error text. -/
theorem decode_failure_fatal (env : Env) (m : String)
    (h : env.decodeError = some m) :
    (transcribe_audio env).result = none
    ∧ (transcribe_audio env).doc = []
    ∧ (transcribe_audio env).files = []
    ∧ (transcribe_audio env).statuses = []
    ∧ (transcribe_audio env).errorShown = some (errPrefix ++ m) := by
  rw [transcribe_decode_fail env m h]
  exact ⟨rfl, rfl, rfl, rfl, rfl⟩

/-- Witness for `decode_failure_fatal` at `envDecodeFail`. -/
theorem decode_failure_fatal_witness :
    (transcribe_audio envDecodeFail).result = none
    ∧ (transcribe_audio envDecodeFail).doc = []
    ∧ (transcribe_audio envDecodeFail).errorShown
        = some (errPrefix ++ "Decoding failed. ffmpeg returned error code: 1") := by
  have h := decode_failure_fatal envDecodeFail
    "Decoding failed. ffmpeg returned error code: 1" rfl
  exact ⟨h.1, h.2.1, h.2.2.2.2⟩

/-- C7: zero-duration audio yields zero chunks, the loop body never runs
(no status lines), the document has zero paragraphs, and the run completes
without error: a path is returned and nothing is shown as an error. -/
theorem zero_duration_empty_document (env : Env) (hdur : env.durationMs = 0)
    (hdec : env.decodeError = none) (hsave : env.saveError = none) :
    total_chunks env.durationMs = 0
    ∧ chunks env.durationMs = []
    ∧ (transcribe_audio env).doc = []
    ∧ (transcribe_audio env).statuses = []
    ∧ (transcribe_audio env).result.isSome
    ∧ (transcribe_audio env).errorShown = none := by
  have h0 : total_chunks env.durationMs = 0 := by rw [hdur]; decide
  refine ⟨h0, ?_, ?_, ?_, (transcribe_success env hdec hsave).1,
    (transcribe_success env hdec hsave).2⟩
  · simp [chunks, h0]
  · rw [transcribe_doc env hdec]
    unfold docParas
    rw [h0]
    rfl
  · rw [transcribe_statuses env hdec, h0]
    rfl

/-- Witness for `zero_duration_empty_document` at `envZero`. -/
theorem zero_duration_empty_document_witness :
    total_chunks envZero.durationMs = 0
    ∧ (transcribe_audio envZero).doc = []
    ∧ (transcribe_audio envZero).result.isSome := by
  have h := zero_duration_empty_document envZero rfl rfl rfl
  exact ⟨h.1, h.2.2.1, h.2.2.2.2.1⟩

/-- C8: the pipeline is deterministic at the document level: two runs whose
environments agree on the decode outcome, the audio duration, every
recognition outcome and the save outcome — but may draw different temporary
file names — produce identical document paragraphs, identical status lines,
the same success/failure result shape and the same error display. -/
theorem pipeline_deterministic (env₁ env₂ : Env)
    (hdec : env₁.decodeError = env₂.decodeError)
    (hdur : env₁.durationMs = env₂.durationMs)
    (hrec : env₁.recognize = env₂.recognize)
    (hsave : env₁.saveError = env₂.saveError) :
    (transcribe_audio env₁).doc = (transcribe_audio env₂).doc
    ∧ (transcribe_audio env₁).statuses = (transcribe_audio env₂).statuses
    ∧ (transcribe_audio env₁).result.isSome = (transcribe_audio env₂).result.isSome
    ∧ (transcribe_audio env₁).errorShown = (transcribe_audio env₂).errorShown := by
  cases hd : env₁.decodeError with
  | some m =>
    have hd₂ : env₂.decodeError = some m := by rw [← hdec]; exact hd
    rw [transcribe_decode_fail env₁ m hd, transcribe_decode_fail env₂ m hd₂]
    exact ⟨rfl, rfl, rfl, rfl⟩
  | none =>
    have hd₂ : env₂.decodeError = none := by rw [← hdec]; exact hd
    have hdoc : (transcribe_audio env₁).doc = (transcribe_audio env₂).doc := by
      rw [transcribe_doc env₁ hd, transcribe_doc env₂ hd₂]
      unfold docParas
      rw [hdur, hrec]
    have hstat : (transcribe_audio env₁).statuses = (transcribe_audio env₂).statuses := by
      rw [transcribe_statuses env₁ hd, transcribe_statuses env₂ hd₂, hdur, hrec]
    refine ⟨hdoc, hstat, ?_, ?_⟩ <;> cases hs : env₁.saveError with
    | some m =>
      have hs₂ : env₂.saveError = some m := by rw [← hsave]; exact hs
      have t₁ := transcribe_save_fail env₁ m hd hs
      have t₂ := transcribe_save_fail env₂ m hd₂ hs₂
      first
      | rw [t₁.1, t₂.1]
      | rw [t₁.2, t₂.2]
    | none =>
      have hs₂ : env₂.saveError = none := by rw [← hsave]; exact hs
      have t₁ := transcribe_success env₁ hd hs
      have t₂ := transcribe_success env₂ hd₂ hs₂
      first
      | rw [t₁.1, t₂.1]
      | rw [t₁.2, t₂.2]

/-- Witness for `pipeline_deterministic`: `envDemo` against the same
environment with a different temporary-name supply. -/
theorem pipeline_deterministic_witness :
    (transcribe_audio envDemo).doc = (transcribe_audio envAltNames).doc
    ∧ (transcribe_audio envDemo).errorShown = (transcribe_audio envAltNames).errorShown := by
  have h := pipeline_deterministic envDemo envAltNames rfl rfl rfl rfl
  exact ⟨h.1, h.2.2.2⟩

/-- C9: `transcribe_audio` never propagates an exception: its interface
value is always a path or `None`; `None` occurs exactly when the decode or
the save raised; the error display is shown exactly when `None` is returned;
and the two fatal kinds are indistinguishable at the interface except for
the message text, both yielding the same `errPrefix`-prefixed display. -/
theorem no_exception_escapes (env : Env) :
    ((transcribe_audio env).result = none
      ↔ (env.decodeError.isSome ∨ env.saveError.isSome))
    ∧ ((transcribe_audio env).errorShown.isSome
      ↔ (transcribe_audio env).result = none)
    ∧ (∀ m, env.decodeError = some m →
        (transcribe_audio env).errorShown = some (errPrefix ++ m))
    ∧ (∀ m, env.decodeError = none → env.saveError = some m →
        (transcribe_audio env).errorShown = some (errPrefix ++ m)) := by
  cases hd : env.decodeError with
  | some m =>
    rw [transcribe_decode_fail env m hd]
    refine ⟨by simp [hd], by simp, ?_, ?_⟩
    · intro m' hm'
      injection hm' with hmm
      rw [hmm]
    · intro m' hdec' _
      exact Option.noConfusion hdec'
  | none =>
    cases hs : env.saveError with
    | some m =>
      have h := transcribe_save_fail env m hd hs
      rw [h.1, h.2]
      refine ⟨by simp [hs], by simp, ?_, ?_⟩
      · intro m' hm'
        exact Option.noConfusion hm'
      · intro m' _ hm'
        injection hm' with hmm
        rw [hmm]
    | none =>
      have h := transcribe_success env hd hs
      obtain ⟨p, hp⟩ := Option.isSome_iff_exists.mp h.1
      rw [hp, h.2]
      refine ⟨by simp [hd, hs], by simp, ?_, ?_⟩
      · intro m' hm'
        exact Option.noConfusion hm'
      · intro m' _ hm'
        exact Option.noConfusion hm'

/-- Witness for `no_exception_escapes`: the decode-failure and save-failure
environments both return `None` with only the message text differing. -/
theorem no_exception_escapes_witness :
    (transcribe_audio envDecodeFail).errorShown
      = some (errPrefix ++ "Decoding failed. ffmpeg returned error code: 1")
    ∧ (transcribe_audio envSaveFail).errorShown = some (errPrefix ++ "disk full") := by
  exact ⟨(no_exception_escapes envDecodeFail).2.2.1 _ rfl,
    (no_exception_escapes envSaveFail).2.2.2 _ rfl rfl⟩

/-- C10: a successful recognition call that returns the empty string
contributes no paragraph: the document equals the one built from the other
chunks alone, and it is identical to the document obtained when that chunk
instead fails with a recoverable recognition failure — the non-emptiness
guard drops both. -/
theorem empty_recognition_like_failure (env env' : Env) (i : Nat)
    (hdec : env.decodeError = none)
    (hok : env.recognize i = .ok "")
    (hdur : env'.durationMs = env.durationMs) (hdec' : env'.decodeError = none)
    (hrec' : (env'.recognize i).isRecoverable)
    (hagree : ∀ j, j ≠ i → env'.recognize j = env.recognize j) :
    segText (env.recognize i) = ""
    ∧ (transcribe_audio env).doc
        = (((List.range (total_chunks env.durationMs)).filter (fun j => !(j == i))).map
            (fun j => segText (env.recognize j))).filter pyTruthy
    ∧ (transcribe_audio env').doc = (transcribe_audio env).doc := by
  have hseg : segText (env.recognize i) = "" := by rw [hok]; rfl
  have hseg' : segText (env'.recognize i) = "" := segText_of_recoverable _ hrec'
  refine ⟨hseg, ?_, ?_⟩
  · rw [transcribe_doc env hdec]
    exact docParas_drop_of_empty env i hseg
  · rw [transcribe_doc env hdec, transcribe_doc env' hdec']
    refine docParas_congr env env' hdur fun j => ?_
    by_cases hj : j = i
    · subst hj
      rw [hseg, hseg']
    · rw [hagree j hj]

/-- Witness for `empty_recognition_like_failure`: chunk 1 returning `""`
versus chunk 1 hitting `UnknownValueError`. -/
theorem empty_recognition_like_failure_witness :
    segText (envEmptyText.recognize 1) = ""
    ∧ (transcribe_audio envDemo).doc = (transcribe_audio envEmptyText).doc := by
  have h := empty_recognition_like_failure envEmptyText envDemo 1
    rfl rfl rfl rfl (Or.inl rfl) (fun j hj => by simp [envEmptyText, hj])
  exact ⟨h.1, h.2.2⟩

end Transcriber
